import Mathlib

/-!
Verification of the canvas animation lifecycle framework of `src/main.js`.

The framework is the `AbstractCanvas` class: each canvas session holds
viewport dimensions, a visibility flag, and a render-loop handle
(`animationId`, a `requestAnimationFrame` id or `null`).  An
`IntersectionObserver` callback flips the visibility flag and calls
`start` / `stop`; `animate` is one step of the render loop.

The shallow embedding below mirrors the source:
  * `LSession` is the mutable instance state of `AbstractCanvas`
    (plus `pending`, the handle of the frame callback currently queued in
    the browser, and `nextHandle`, a counter supplying fresh nonzero
    `requestAnimationFrame` ids — browsers return positive ids, so the
    JavaScript truthiness test `!this.animationId` is `animationId = none`).
  * `Action` is the observable effect trace of one operation (canvas
    clear, effect draw, frame scheduling and cancellation).
  * The per-effect state is a type parameter `E`; the subclass `draw`
    bodies are an arbitrary update function `d : E → E`, since the
    lifecycle logic never inspects the effect state.
-/

namespace Portfolio

/-- Observable side effects of one lifecycle operation: `clear` is
`ctx.clearRect`, `draw` is the subclass `draw()` call, `schedule h` is
`requestAnimationFrame` returning handle `h`, `cancel h` is
`cancelAnimationFrame(h)`. -/
inductive Action where
  | clear : Action
  | draw : Action
  | schedule : Nat → Action
  | cancel : Nat → Action
deriving DecidableEq

/-- The per-session state of `AbstractCanvas` (src/main.js lines 42-105)
for a session whose target element is present, parametrised by the
effect-local state `E` of the subclass. -/
structure LSession (E : Type) where
  width : Nat
  height : Nat
  isVisible : Bool
  animationId : Option Nat
  /-- handle of the frame callback currently queued in the browser, if any -/
  pending : Option Nat
  /-- counter supplying fresh positive `requestAnimationFrame` handles -/
  nextHandle : Nat
  effect : E
deriving DecidableEq

variable {E : Type}

/-- Session state right after the constructor body for a present element:
`this.width/height` from the window, `animationId = null`,
`isVisible = false`, and the subclass `init()` result as effect state
(src/main.js lines 43-57). -/
def initS (w h : Nat) (e : E) : LSession E :=
  ⟨w, h, false, none, none, 1, e⟩

/-- `AbstractCanvas.animate` (src/main.js lines 97-102): if the session is
not visible, return without touching anything; otherwise clear the canvas,
run the subclass `draw`, and schedule the next frame, storing its handle
in `animationId`. -/
def animateS (d : E → E) (s : LSession E) : LSession E × List Action :=
  if s.isVisible then
    let h := s.nextHandle
    ({ s with effect := d s.effect
              animationId := some h
              pending := some h
              nextHandle := h + 1 },
     [Action.clear, Action.draw, Action.schedule h])
  else
    (s, [])

/-- `AbstractCanvas.start` (src/main.js lines 84-88): call `animate` only
when `animationId` is falsy (`null`). -/
def startS (d : E → E) (s : LSession E) : LSession E × List Action :=
  if s.animationId = none then animateS d s else (s, [])

/-- `AbstractCanvas.stop` (src/main.js lines 90-95): when a handle is
stored, cancel that frame request and clear the handle; otherwise do
nothing.  `cancelAnimationFrame h` removes the queued callback only if it
is still the pending one. -/
def stopS (s : LSession E) : LSession E × List Action :=
  match s.animationId with
  | some h =>
      ({ s with animationId := none
                pending := if s.pending = some h then none else s.pending },
       [Action.cancel h])
  | none => (s, [])

/-- The `IntersectionObserver` callback branch for an intersecting entry
(src/main.js lines 62-64): set `isVisible` and call `start`. -/
def enterS (d : E → E) (s : LSession E) : LSession E × List Action :=
  startS d { s with isVisible := true }

/-- The `IntersectionObserver` callback branch for a non-intersecting
entry (src/main.js lines 65-68): clear `isVisible` and call `stop`. -/
def leaveS (s : LSession E) : LSession E × List Action :=
  stopS { s with isVisible := false }

/-- The browser firing the queued frame callback, when one is queued: the
handle is consumed from the queue and the callback body `() => this.animate()`
runs.  With no queued callback nothing happens. -/
def frameStepS (d : E → E) (s : LSession E) : LSession E × List Action :=
  match s.pending with
  | some _ => animateS d { s with pending := none }
  | none => (s, [])

/-- The event alphabet of a session: the two observer callback branches,
explicit `start` and `stop` calls, and the browser firing a queued frame
callback. -/
inductive Event where
  | enter : Event
  | leave : Event
  | start : Event
  | stop : Event
  | frame : Event
deriving DecidableEq

/-- Resulting state of dispatching one event against a session. -/
def stepEv (d : E → E) (s : LSession E) (e : Event) : LSession E :=
  match e with
  | .enter => (enterS d s).1
  | .leave => (leaveS s).1
  | .start => (startS d s).1
  | .stop => (stopS s).1
  | .frame => (frameStepS d s).1

/-- Run a sequence of events to completion, one after the other (each
event is atomic under the single-threaded cooperative scheduling, so the
state after the fold is a quiescent point). -/
def runEvents (d : E → E) (evs : List Event) (s : LSession E) : LSession E :=
  List.foldl (stepEv d) s evs

/-- Claim C2: starting a session whose `animationId` is non-null is a
no-op — it draws nothing, schedules no additional frame callback, and
leaves the session state (hence the single active render loop) unchanged. -/
theorem start_noop_when_running (d : E → E) (s : LSession E)
    (h : s.animationId ≠ none) : startS d s = (s, []) := by
  unfold startS
  simp [h]

/-- Witness for `start_noop_when_running` on a concrete running session. -/
theorem start_noop_when_running_witness :
    ((⟨800, 600, true, some 1, some 1, 2, ()⟩ : LSession Unit).animationId ≠ none) ∧
      startS (fun u : Unit => u) ⟨800, 600, true, some 1, some 1, 2, ()⟩ =
        (⟨800, 600, true, some 1, some 1, 2, ()⟩, []) :=
  ⟨by decide, start_noop_when_running (fun u : Unit => u) _ (by decide)⟩

/-- Claim C3: stopping a session whose `animationId` is null is a no-op —
no cancellation is issued and the whole session state is unchanged. -/
theorem stop_noop_when_not_running (s : LSession E)
    (h : s.animationId = none) : stopS s = (s, []) := by
  unfold stopS
  rw [h]

/-- Witness for `stop_noop_when_not_running` on a concrete idle session. -/
theorem stop_noop_when_not_running_witness :
    ((⟨800, 600, false, none, none, 1, ()⟩ : LSession Unit).animationId = none) ∧
      stopS (⟨800, 600, false, none, none, 1, ()⟩ : LSession Unit) =
        (⟨800, 600, false, none, none, 1, ()⟩, []) :=
  ⟨rfl, stop_noop_when_not_running _ rfl⟩

/-- Claim C9: starting an invisible, non-running session draws nothing and
changes nothing: `start` falls through to `animate`, whose visibility
guard returns at once, so `animationId` stays null. -/
theorem start_noop_when_invisible (d : E → E) (s : LSession E)
    (hv : s.isVisible = false) (ha : s.animationId = none) :
    startS d s = (s, []) := by
  unfold startS animateS
  simp [ha, hv]

/-- Witness for `start_noop_when_invisible` on a concrete session. -/
theorem start_noop_when_invisible_witness :
    ((⟨1024, 768, false, none, none, 1, ()⟩ : LSession Unit).isVisible = false) ∧
      ((⟨1024, 768, false, none, none, 1, ()⟩ : LSession Unit).animationId = none) ∧
      startS (fun u : Unit => u) (⟨1024, 768, false, none, none, 1, ()⟩ : LSession Unit) =
        (⟨1024, 768, false, none, none, 1, ()⟩, []) :=
  ⟨rfl, rfl, start_noop_when_invisible (fun u : Unit => u) _ rfl rfl⟩

/-- One event other than an explicit `stop` preserves the equivalence
between holding a render-loop handle and being visible. -/
theorem stepEv_preserves_inv (d : E → E) (s : LSession E) (e : Event)
    (he : e ≠ Event.stop)
    (h : s.animationId ≠ none ↔ s.isVisible = true) :
    (stepEv d s e).animationId ≠ none ↔ (stepEv d s e).isVisible = true := by
  cases e with
  | enter =>
      by_cases ha : s.animationId = none <;>
        simp [stepEv, enterS, startS, animateS, ha]
  | leave =>
      cases ha : s.animationId <;>
        simp [stepEv, leaveS, stopS, ha]
  | start =>
      by_cases ha : s.animationId = none
      · have hv : s.isVisible = false := by
          cases hvb : s.isVisible
          · rfl
          · exact absurd (h.mpr hvb) (by simp [ha])
        simp [stepEv, startS, animateS, ha, hv]
      · simp [stepEv, startS, ha, h]
  | stop => exact absurd rfl he
  | frame =>
      cases hp : s.pending with
      | none => simpa [stepEv, frameStepS, hp] using h
      | some hdl =>
          cases hv : s.isVisible
          · have ha : s.animationId = none := by
              cases hab : s.animationId
              · rfl
              · exact absurd (h.mp (by simp [hab])) (by simp [hv])
            simp [stepEv, frameStepS, hp, animateS, hv, ha]
          · simp [stepEv, frameStepS, hp, animateS, hv]

/-- The handle-iff-visible equivalence is preserved by any event sequence
that contains no explicit `stop`. -/
theorem runEvents_preserves_inv (d : E → E) (evs : List Event) :
    ∀ s : LSession E, Event.stop ∉ evs →
      (s.animationId ≠ none ↔ s.isVisible = true) →
      ((runEvents d evs s).animationId ≠ none ↔
        (runEvents d evs s).isVisible = true) := by
  induction evs with
  | nil => intro s _ h; exact h
  | cons e rest ih =>
      intro s hstop h
      have he : e ≠ Event.stop := fun hc => hstop (by simp [hc])
      have hrest : Event.stop ∉ rest := fun hc => hstop (List.mem_cons_of_mem _ hc)
      simpa [runEvents] using
        ih (stepEv d s e) hrest (stepEv_preserves_inv d s e he h)

/-- Claim C1, as stated, is false: the claim admits arbitrary `start` and
`stop` invocations among the events, and an explicit `stop` on a visible
running session leaves `isVisible = true` with `animationId = null`.
Concretely, from a fresh session the quiescent point after the events
[observer-enter, explicit stop] violates the handle-iff-visible
equivalence. -/
theorem handle_iff_visible_counterexample :
    ¬ (((runEvents (fun u : Unit => u) [Event.enter, Event.stop]
          (initS 800 600 ())).animationId ≠ none) ↔
        ((runEvents (fun u : Unit => u) [Event.enter, Event.stop]
          (initS 800 600 ())).isVisible = true)) := by
  decide

/-- Claim C1 (amended): for every canvas session with a present target
element, at every quiescent point after any sequence of observer
visibility callbacks, `start` invocations and frame steps — with `stop`
invoked only from inside the observer's not-intersecting callback, never
as a free-standing event — the render-loop handle `animationId` is
non-null if and only if `isVisible` is true. -/
theorem handle_iff_visible_no_explicit_stop (d : E → E) (w h : Nat) (e0 : E)
    (evs : List Event) (hstop : Event.stop ∉ evs) :
    ((runEvents d evs (initS w h e0)).animationId ≠ none ↔
      (runEvents d evs (initS w h e0)).isVisible = true) :=
  runEvents_preserves_inv d evs (initS w h e0) hstop (by simp [initS])

/-- Witness for `handle_iff_visible_no_explicit_stop` on a concrete
stop-free event sequence. -/
theorem handle_iff_visible_witness :
    (Event.stop ∉ [Event.enter, Event.frame, Event.leave]) ∧
      ((runEvents (fun u : Unit => u) [Event.enter, Event.frame, Event.leave]
          (initS 800 600 ())).animationId ≠ none ↔
        (runEvents (fun u : Unit => u) [Event.enter, Event.frame, Event.leave]
          (initS 800 600 ())).isVisible = true) :=
  ⟨by decide,
    handle_iff_visible_no_explicit_stop (fun u : Unit => u) 800 600 ()
      [Event.enter, Event.frame, Event.leave] (by decide)⟩

/-- Iterated firing of frame callbacks (state part only). -/
def frameIter (d : E → E) : Nat → LSession E → LSession E
  | 0, s => s
  | n + 1, s => frameIter d n (frameStepS d s).1

/-- Claim C4: a frame step that begins while `isVisible` is false performs
no clearing, no drawing and no scheduling (empty action trace), only
consumes the queued callback; afterwards no number of further frame
firings ever changes the state again — the loop has self-terminated, so
after a session becomes invisible with a callback in flight exactly that
one inert step runs and the loop never reschedules itself. -/
theorem invisible_frame_step_inert (d : E → E) (s : LSession E)
    (hv : s.isVisible = false) :
    (frameStepS d s).2 = [] ∧
      (frameStepS d s).1 = { s with pending := none } ∧
      ∀ n : Nat, frameIter d n (frameStepS d s).1 = (frameStepS d s).1 := by
  have hstep : frameStepS d s = ({ s with pending := none }, []) := by
    cases s with
    | mk w h vis aid pend nh e =>
        cases pend with
        | none => simp [frameStepS]
        | some hdl => simp_all [frameStepS, animateS]
  refine ⟨by rw [hstep], by rw [hstep], ?_⟩
  intro n
  rw [hstep]
  induction n with
  | zero => rfl
  | succ k ih =>
      have hfix : frameStepS d ({ s with pending := none } : LSession E) =
          ({ s with pending := none }, []) := by
        simp [frameStepS]
      simp [frameIter, hfix, ih]

/-- Witness for `invisible_frame_step_inert` on a concrete invisible
session with an in-flight frame callback. -/
theorem invisible_frame_step_inert_witness :
    ((⟨800, 600, false, none, some 5, 6, ()⟩ : LSession Unit).isVisible = false) ∧
      ((frameStepS (fun u : Unit => u) ⟨800, 600, false, none, some 5, 6, ()⟩).2 = [] ∧
        (frameStepS (fun u : Unit => u) ⟨800, 600, false, none, some 5, 6, ()⟩).1 =
          ({ (⟨800, 600, false, none, some 5, 6, ()⟩ : LSession Unit) with
              pending := none }) ∧
        ∀ n : Nat,
          frameIter (fun u : Unit => u) n
              (frameStepS (fun u : Unit => u) ⟨800, 600, false, none, some 5, 6, ()⟩).1 =
            (frameStepS (fun u : Unit => u) ⟨800, 600, false, none, some 5, 6, ()⟩).1) :=
  ⟨rfl, invisible_frame_step_inert (fun u : Unit => u) _ rfl⟩

/-- What of the constructor body actually ran: capturing the 2D drawing
context, invoking the subclass one-time `init`, registering the
`IntersectionObserver` on the parent element, registering the window
resize listener. -/
structure ConstructEffects where
  ctxCaptured : Bool
  initInvoked : Bool
  observerRegistered : Bool
  resizeListenerRegistered : Bool
deriving DecidableEq

/-- `AbstractCanvas.constructor` (src/main.js lines 43-76):
`document.getElementById` either finds the target element
(`present = true`) or not; on `!this.canvas` the constructor returns
before capturing the 2D context, before the subclass `init()`, and before
registering the observer and the resize listener.  `e0` is the subclass
`init`, a function of the captured window dimensions. -/
def construct (e0 : Nat → Nat → E) (present : Bool) (winW winH : Nat) :
    Option (LSession E) × ConstructEffects :=
  if present then
    (some (initS winW winH (e0 winW winH)), ⟨true, true, true, true⟩)
  else
    (none, ⟨false, false, false, false⟩)

/-- Dispatching events against a possibly-inert session: an absent session
has no state and no registered callbacks, so no event ever produces a
session state. -/
def runOpt (d : E → E) (evs : List Event) :
    Option (LSession E) → Option (LSession E)
  | none => none
  | some s => some (runEvents d evs s)

/-- Claim C5: a session whose target element is absent at construction is
inert and this is not an error: no drawing context is captured, the
effect's one-time setup is never invoked, no observer or resize listener
is registered, and under any subsequent event sequence no session state —
in particular no render loop — ever comes into being. -/
theorem absent_element_inert (e0 : Nat → Nat → E) (d : E → E)
    (winW winH : Nat) (evs : List Event) :
    (construct e0 false winW winH).1 = none ∧
      (construct e0 false winW winH).2 = ⟨false, false, false, false⟩ ∧
      runOpt d evs (construct e0 false winW winH).1 = none :=
  ⟨rfl, rfl, rfl⟩

/-- One grid dot of `AboutCanvas` (src/main.js line 175): its rest
position and its current position, which coincide at creation. -/
structure Dot where
  originX : Nat
  originY : Nat
  x : Nat
  y : Nat
deriving DecidableEq

/-- The values taken by the loop variable of
`for (let v = x; v < limit; v += spacing)`.  The structural `fuel`
argument bounds the number of iterations; since the loop body advances
`v` by `spacing ≥ 1`, `fuel = limit` iterations always suffice from
`x = 0` (the program only ever uses `spacing = 50`). -/
def gridFromAux : Nat → Nat → Nat → Nat → List Nat
  | 0, _, _, _ => []
  | fuel + 1, spacing, limit, x =>
      if x < limit then x :: gridFromAux fuel spacing limit (x + spacing) else []

/-- The loop `for (let v = 0; v < limit; v += spacing)`. -/
def gridCoords (spacing limit : Nat) : List Nat :=
  gridFromAux limit spacing limit 0

/-- `AboutCanvas.createDots` (src/main.js lines 171-178): outer loop over
x, inner loop over y, pushing a dot at each grid position. -/
def createDots (spacing w h : Nat) : List Dot :=
  (gridCoords spacing w).flatMap fun x =>
    (gridCoords spacing h).map fun y => ⟨x, y, x, y⟩

/-- Effect-local state of `AboutCanvas`: the spacing field set by `init`
and the dot collection. -/
structure AboutState where
  spacing : Nat
  dots : List Dot
deriving DecidableEq

/-- `AboutCanvas.init` (src/main.js lines 161-165): set `spacing = 50`,
then build the dots from the current dimensions. -/
def aboutInit (w h : Nat) : AboutState :=
  { spacing := 50, dots := createDots 50 w h }

/-- `AbstractCanvas.resize` (src/main.js lines 78-82): store the current
window dimensions, then `this.onResize && this.onResize()` — run the
effect-supplied resize hook only when the subclass defines one. -/
def resizeWith (onR : Option (Nat → Nat → E → E)) (winW winH : Nat)
    (s : LSession E) : LSession E :=
  let s1 := { s with width := winW, height := winH }
  match onR with
  | some f => { s1 with effect := f winW winH s1.effect }
  | none => s1

/-- `AboutCanvas.onResize` (src/main.js lines 167-169): rebuild the dots
from the (freshly stored) dimensions and the session's spacing. -/
def aboutOnResize (w h : Nat) (st : AboutState) : AboutState :=
  { st with dots := createDots st.spacing w h }

/-- The resize handler of an `AboutCanvas` session. -/
def aboutResize (winW winH : Nat) (s : LSession AboutState) :
    LSession AboutState :=
  resizeWith (some aboutOnResize) winW winH s

/-- Length of the loop value list for spacing 50: with enough fuel it is
the ceiling `(limit - x + 49) / 50` of `(limit - x) / 50`. -/
theorem gridFromAux_length_50 (limit : Nat) :
    ∀ fuel x : Nat, limit ≤ x + 50 * fuel →
      (gridFromAux fuel 50 limit x).length = (limit - x + 49) / 50 := by
  intro fuel
  induction fuel with
  | zero =>
      intro x hx
      simp only [gridFromAux, List.length_nil]
      omega
  | succ k ih =>
      intro x hx
      by_cases hlt : x < limit
      · have hrec := ih (x + 50) (by omega)
        simp only [gridFromAux, hlt, if_true, List.length_cons, hrec]
        omega
      · simp only [gridFromAux, hlt, if_false, List.length_nil]
        omega

/-- The column loop over `[0, limit)` with spacing 50 produces
`⌈limit / 50⌉` values. -/
theorem gridCoords_length_50 (limit : Nat) :
    (gridCoords 50 limit).length = (limit + 49) / 50 := by
  have h := gridFromAux_length_50 limit limit 0 (by omega)
  simpa [gridCoords] using h

/-- The nested push loop produces `|xs| * |ys|` dots. -/
theorem flatMap_map_length (xs ys : List Nat) (g : Nat → Nat → Dot) :
    (xs.flatMap fun x => ys.map fun y => g x y).length =
      xs.length * ys.length := by
  induction xs with
  | nil => simp
  | cons a t ih => simp [ih, Nat.succ_mul, Nat.add_comm]

/-- `createDots` produces `⌈w / 50⌉ * ⌈h / 50⌉` dots at spacing 50. -/
theorem createDots_length_50 (w h : Nat) :
    (createDots 50 w h).length = ((w + 49) / 50) * ((h + 49) / 50) := by
  simpa [createDots, gridCoords_length_50] using
    flatMap_map_length (gridCoords 50 w) (gridCoords 50 h) fun x y => ⟨x, y, x, y⟩

/-- Claim C6: after a resize event every session records the current
viewport dimensions; the grid effect, which supplies a resize hook, has
its dot collection regenerated with exactly
`⌈winW / 50⌉ * ⌈winH / 50⌉` entities (`(n + 49) / 50` is `⌈n / 50⌉` on
naturals); an effect without a resize hook keeps its entity state
untouched. -/
theorem resize_updates_dimensions (winW winH : Nat) :
    (∀ s : LSession AboutState, s.effect.spacing = 50 →
      (aboutResize winW winH s).width = winW ∧
        (aboutResize winW winH s).height = winH ∧
        (aboutResize winW winH s).effect.dots.length =
          ((winW + 49) / 50) * ((winH + 49) / 50)) ∧
    (∀ (F : Type) (t : LSession F),
      (resizeWith none winW winH t).width = winW ∧
        (resizeWith none winW winH t).height = winH ∧
        (resizeWith none winW winH t).effect = t.effect) := by
  constructor
  · intro s hsp
    refine ⟨rfl, rfl, ?_⟩
    simp [aboutResize, resizeWith, aboutOnResize, hsp, createDots_length_50]
  · intro F t
    exact ⟨rfl, rfl, rfl⟩

/-- Witness for `resize_updates_dimensions` at viewport 1000×700 on a
concrete grid session. -/
theorem resize_updates_dimensions_witness :
    ((initS 800 600 (aboutInit 800 600)).effect.spacing = 50) ∧
      (aboutResize 1000 700 (initS 800 600 (aboutInit 800 600))).width = 1000 ∧
      (aboutResize 1000 700 (initS 800 600 (aboutInit 800 600))).height = 700 ∧
      (aboutResize 1000 700 (initS 800 600 (aboutInit 800 600))).effect.dots.length =
        ((1000 + 49) / 50) * ((700 + 49) / 50) ∧
      (resizeWith none 1000 700 (initS 800 600 ())).width = 1000 ∧
      (resizeWith none 1000 700 (initS 800 600 ())).height = 700 ∧
      (resizeWith none 1000 700 (initS 800 600 ())).effect = () :=
  ⟨rfl,
    ((resize_updates_dimensions 1000 700).1 (initS 800 600 (aboutInit 800 600)) rfl).1,
    ((resize_updates_dimensions 1000 700).1 (initS 800 600 (aboutInit 800 600)) rfl).2.1,
    ((resize_updates_dimensions 1000 700).1 (initS 800 600 (aboutInit 800 600)) rfl).2.2,
    ((resize_updates_dimensions 1000 700).2 Unit (initS 800 600 ())).1,
    ((resize_updates_dimensions 1000 700).2 Unit (initS 800 600 ())).2.1,
    ((resize_updates_dimensions 1000 700).2 Unit (initS 800 600 ())).2.2⟩

set_option maxRecDepth 40000 in
/-- Claim C7: with viewport 800×600 and spacing 50 the grid setup produces
exactly 16 × 12 = 192 dots, pairwise distinct, one at each position
`(50 i, 50 j)` for `i < 16`, `j < 12`. -/
theorem grid_800x600_has_192_dots :
    (aboutInit 800 600).dots.length = 192 ∧
      (∀ i < 16, ∀ j < 12,
        (⟨50 * i, 50 * j, 50 * i, 50 * j⟩ : Dot) ∈ (aboutInit 800 600).dots) ∧
      (aboutInit 800 600).dots.Nodup := by
  decide

/-- Default x of the shared mouse tracker (src/main.js line 35): the
off-screen sentinel. -/
def mouseX0 : ℚ := -1000

/-- Default y of the shared mouse tracker (src/main.js line 35). -/
def mouseY0 : ℚ := -1000

/-- Squared pointer distance of an `AboutCanvas` dot (src/main.js lines
183-185): `dx = mouse.x - dot.x`, `dy = mouse.y - (dot.y + rect.top)`,
`dist = sqrt (dx² + dy²)`; comparisons against a radius `r ≥ 0` are
phrased on squares, `dist < r ↔ dx² + dy² < r²`, so the embedding stays
inside ℚ. -/
def aboutDistSq (mx my rectTop x y : ℚ) : ℚ :=
  (mx - x) ^ 2 + (my - (y + rectTop)) ^ 2

/-- Squared pointer distance of a `SkillsCanvas` shape (src/main.js lines
227-229): `dy = mouse.y - (shape.y + rect.top)`, `dx = mouse.x - shape.x`. -/
def skillsDistSq (mx my rectTop x y : ℚ) : ℚ :=
  (mx - x) ^ 2 + (my - (y + rectTop)) ^ 2

/-- Squared pointer distance of a `ContactCanvas` particle (src/main.js
lines 299-301): `dx = mouse.x - p.x`, `dy = mouse.y - rect.top - p.y`. -/
def contactDistSq (mx my rectTop x y : ℚ) : ℚ :=
  (mx - x) ^ 2 + (my - rectTop - y) ^ 2

/-- The grid force term `max(0, 150 - dist) / 150` (src/main.js line 186)
vanishes exactly when `dist ≥ 150`, i.e. when the squared distance is at
least `150²`. -/
def aboutForceZero (mx my rectTop x y : ℚ) : Prop :=
  (150 : ℚ) ^ 2 ≤ aboutDistSq mx my rectTop x y

/-- The shape-avoidance branch `if (dist < 200)` (src/main.js line 230),
on squares. -/
def skillsInteracts (mx my rectTop x y : ℚ) : Prop :=
  skillsDistSq mx my rectTop x y < (200 : ℚ) ^ 2

/-- The particle-attraction branch `if (dist < 300)` (src/main.js line
304), on squares. -/
def contactInteracts (mx my rectTop x y : ℚ) : Prop :=
  contactDistSq mx my rectTop x y < (300 : ℚ) ^ 2

/-- Claim C8: with the pointer at its default off-screen sentinel
`(-1000, -1000)` and any entity at a nonnegative horizontal position, the
squared pointer distance exceeds the square of every interaction radius
(150 for the grid, 200 for the floating shapes, 300 for the gravity
particles), so the grid force term is zero and neither conditional
interaction branch is taken, whatever the vertical position and the
scroll offset `rectTop` are. -/
theorem offscreen_pointer_no_force (x y rectTop : ℚ) (hx : 0 ≤ x) :
    aboutForceZero mouseX0 mouseY0 rectTop x y ∧
      ¬ skillsInteracts mouseX0 mouseY0 rectTop x y ∧
      ¬ contactInteracts mouseX0 mouseY0 rectTop x y := by
  refine ⟨?_, ?_, ?_⟩
  · unfold aboutForceZero aboutDistSq mouseX0 mouseY0
    nlinarith [sq_nonneg (-1000 - (y + rectTop)), sq_nonneg x]
  · unfold skillsInteracts skillsDistSq mouseX0 mouseY0
    nlinarith [sq_nonneg (-1000 - (y + rectTop)), sq_nonneg x]
  · unfold contactInteracts contactDistSq mouseX0 mouseY0
    nlinarith [sq_nonneg (-1000 - rectTop - y), sq_nonneg x]

/-- Witness for `offscreen_pointer_no_force` at the origin entity with no
scroll offset. -/
theorem offscreen_pointer_no_force_witness :
    ((0 : ℚ) ≤ 0) ∧
      (aboutForceZero mouseX0 mouseY0 0 0 0 ∧
        ¬ skillsInteracts mouseX0 mouseY0 0 0 0 ∧
        ¬ contactInteracts mouseX0 mouseY0 0 0 0) :=
  ⟨le_refl 0, offscreen_pointer_no_force 0 0 0 (le_refl 0)⟩

/-- One gravity particle of `ContactCanvas` (src/main.js lines 284-290). -/
structure CParticle where
  x : ℚ
  y : ℚ
  vx : ℚ
  vy : ℚ
  friction : ℚ
deriving DecidableEq

/-- One fresh particle of `ContactCanvas.init` (src/main.js lines
283-291): position `Math.random() * width`, `Math.random() * height`
with the two random draws `rx, ry ∈ [0, 1)` passed in explicitly, zero
velocity, friction 0.95. -/
def contactNew (w h rx ry : ℚ) : CParticle :=
  ⟨rx * w, ry * h, 0, 0, 0.95⟩

/-- One per-frame update of a `ContactCanvas` particle (src/main.js lines
298-320), in source order: conditional attraction toward the pointer
(`dist < 300` phrased on squares), position integration, friction,
horizontal random jitter `Math.random() - 0.5` with the draw `r` passed
in explicitly, then the four wrap-around checks, sequentially as in the
source. -/
def contactStep (w h mx my rectTop r : ℚ) (p : CParticle) : CParticle :=
  let dx := mx - p.x
  let dy := my - rectTop - p.y
  let vx1 := if dx ^ 2 + dy ^ 2 < (300 : ℚ) ^ 2 then p.vx + dx * 0.001 else p.vx
  let vy1 := if dx ^ 2 + dy ^ 2 < (300 : ℚ) ^ 2 then p.vy + dy * 0.001 else p.vy
  let x1 := p.x + vx1
  let y1 := p.y + vy1
  let vx2 := vx1 * p.friction
  let vy2 := vy1 * p.friction
  let x2 := x1 + (r - 0.5)
  let x3 := if x2 < 0 then w else x2
  let x4 := if x3 > w then 0 else x3
  let y2 := if y1 < 0 then h else y1
  let y3 := if y2 > h then 0 else y2
  ⟨x4, y3, vx2, vy2, p.friction⟩

/-- The positional invariant of the gravity particles. -/
def inBounds (w h : ℚ) (p : CParticle) : Prop :=
  0 ≤ p.x ∧ p.x ≤ w ∧ 0 ≤ p.y ∧ p.y ≤ h

/-- Claim C10: for nonnegative canvas dimensions, every fresh gravity
particle lies inside `[0, w] × [0, h]` (the random draws lie in `[0, 1)`),
and one frame step lands any particle inside `[0, w] × [0, h]` — whatever
the pointer, scroll offset, jitter draw and incoming particle state are —
because the trailing wrap-around returns every out-of-range coordinate to
the opposite boundary.  In particular the invariant holds after setup and
is preserved by every frame step. -/
theorem contact_particles_in_bounds (w h : ℚ) (hw : 0 ≤ w) (hh : 0 ≤ h) :
    (∀ rx ry : ℚ, 0 ≤ rx → rx < 1 → 0 ≤ ry → ry < 1 →
      inBounds w h (contactNew w h rx ry)) ∧
    (∀ (mx my rectTop r : ℚ) (p : CParticle),
      inBounds w h (contactStep w h mx my rectTop r p)) := by
  constructor
  · intro rx ry hrx hrx1 hry hry1
    unfold contactNew inBounds
    refine ⟨mul_nonneg hrx hw, ?_, mul_nonneg hry hh, ?_⟩
    · nlinarith [mul_nonneg (by linarith : (0 : ℚ) ≤ 1 - rx) hw]
    · nlinarith [mul_nonneg (by linarith : (0 : ℚ) ≤ 1 - ry) hh]
  · intro mx my rectTop r p
    unfold contactStep inBounds
    dsimp only
    split_ifs <;> constructor <;> (try constructor) <;> (try constructor) <;> linarith

/-- Witness for `contact_particles_in_bounds` on the degenerate 0×0
canvas, where every hypothesis closes by reflexivity or `0 < 1`. -/
theorem contact_particles_in_bounds_witness :
    ((0 : ℚ) ≤ 0) ∧
      inBounds 0 0 (contactNew 0 0 0 0) ∧
      inBounds 0 0 (contactStep 0 0 mouseX0 mouseY0 0 0 ⟨7, -3, 1, 1, 0.95⟩) :=
  ⟨le_refl 0,
    (contact_particles_in_bounds 0 0 (le_refl 0) (le_refl 0)).1 0 0 (le_refl 0)
      zero_lt_one (le_refl 0) zero_lt_one,
    (contact_particles_in_bounds 0 0 (le_refl 0) (le_refl 0)).2 mouseX0 mouseY0 0 0
      ⟨7, -3, 1, 1, 0.95⟩⟩

end Portfolio
